import Mathlib

/-!
Verification of the cheribuild excerpt consisting of
`pycheribuild/projects/run_fvp.py` and
`pycheribuild/projects/cross/newlib_baremetal.py`.

The Python code is shallowly embedded: paths are strings, the filesystem
is passed in as explicit data (existence booleans, glob results), and the
argument lists that the code constructs for external processes are
modelled as `List String` built exactly the way the Python code builds
them.
-/

namespace RunFVP

/-! ### InstallMorelloFVP -/

/-- `InstallMorelloFVP.latest_known_fvp` (run_fvp.py line 45). -/
def latest_known_fvp : Int := 345

/-- `InstallMorelloFVP.fvp_revision` (run_fvp.py lines 176-190): reading
the revision file and parsing it as an integer either succeeds with some
value (`some n`) or fails for any reason (`none`); on failure the method
warns and returns `latest_known_fvp`. -/
def fvp_revision (readResult : Option Int) : Int :=
  match readResult with
  | some n => n
  | none => latest_known_fvp

/-- `InstallMorelloFVP._plugin_args` (run_fvp.py lines 123-129):
an empty list when the revision is at least 312, otherwise
`["--plugin", <plugin path>]` (the docker / non-docker distinction only
changes the path, which is passed in here). -/
def plugin_args (rev : Int) (pluginPath : String) : List String :=
  if rev ≥ 312 then [] else ["--plugin", pluginPath]

/-- The "FVP is too old" check in `LaunchFVPBase.process`
(run_fvp.py lines 337-338): fatal iff the revision is below 312. -/
def fvp_is_too_old (rev : Int) : Bool := rev < 312

/-- `InstallMorelloFVP.process` installer-selection step
(run_fvp.py lines 79-87): when `installer_path` has suffix `".tgz"` the
archive is extracted into the temporary directory `td` and the installer
is the first `*.sh` glob result there, falling back to
`Path(td, "FVP_Morello.sh")` when the glob result list is empty
(`(list(Path(td).glob("*.sh")) or [Path(td, "FVP_Morello.sh")])[0]`);
otherwise the installer is `installer_path` itself. -/
def installer_sh (installer_path suffix td : String) (globSh : List String) : String :=
  if suffix = ".tgz" then
    match globSh with
    | [] => td ++ "/FVP_Morello.sh"
    | x :: _ => x
  else installer_path

/-! ### LaunchFVPBase argument construction -/

/-- `LaunchFVPBase.use_virtio_net` (run_fvp.py lines 243-246): always
`False` until a model with the IRQ wired up is released. -/
def use_virtio_net : Bool := false

/-- The board-parameter prefix chosen inside `add_board_params`
(run_fvp.py line 267): `"bp."` for the architectural FVP, `"board."`
otherwise. -/
def board_pfx (use_architectureal_fvp : Bool) : String :=
  if use_architectureal_fvp then "bp." else "board."

/-- `add_board_params` (run_fvp.py lines 266-268): prepend the board
prefix to every parameter. -/
def add_board_params (use_architectureal_fvp : Bool) (params : List String) : List String :=
  params.map (fun p => board_pfx use_architectureal_fvp ++ p)

/-- The hostbridge prefix built inside `add_hostbridge_params`
(run_fvp.py lines 270-272): `"virtio_net."` first when virtio-net is in
use, then `"hostbridge."`. -/
def hostbridge_pfx : String :=
  (if use_virtio_net then "virtio_net." else "") ++ "hostbridge."

/-- `add_hostbridge_params` (run_fvp.py lines 270-273): prepend the
hostbridge prefix, then hand over to `add_board_params`. -/
def add_hostbridge_params (use_architectureal_fvp : Bool) (params : List String) :
    List String :=
  add_board_params use_architectureal_fvp (params.map (fun p => hostbridge_pfx ++ p))

/-- The `model_params` built by the branch-independent part of
`LaunchFVPBase.process` (run_fvp.py lines 264-290): the network device
enable, the hostbridge user-networking parameters for the configured
ssh port, and the transport/disk-image parameters. -/
def common_model_params (use_architectureal_fvp : Bool) (ssh_port : Nat)
    (disk_image : String) : List String :=
  (if use_virtio_net then add_board_params use_architectureal_fvp ["virtio_net.enabled=1"]
   else add_board_params use_architectureal_fvp ["smsc_91c111.enabled=1"]) ++
  add_hostbridge_params use_architectureal_fvp
    ["userNetworking=true",
     "userNetPorts=" ++ toString ssh_port ++ "=22",
     "interfaceName=ARM0"] ++
  add_board_params use_architectureal_fvp
    ["virtio_net.transport=legacy",
     "virtio_rng.transport=legacy",
     "virtioblockdevice.image_path=" ++ disk_image]

/-- The parameters appended in the architectural-FVP branch of
`LaunchFVPBase.process` (run_fvp.py lines 311-318). -/
def arch_extra_params (fip_bin bl1_bin : String) : List String :=
  ["pctl.startup=0.0.0.0",
   "bp.secure_memory=0",
   "cache_state_modelled=0",
   "cluster0.NUM_CORES=1",
   "bp.flashloader0.fname=" ++ fip_bin,
   "bp.secureflashloader.fname=" ++ bl1_bin]

/-- The parameters appended in the Morello-FVP branch of
`LaunchFVPBase.process` (run_fvp.py lines 324-336): the display
controller parameter, plus the virtio-rng parameters when the FVP
revision is above 255. -/
def morello_extra_params (fvp_rev : Int) : List String :=
  ["displayController=0"] ++
  (if fvp_rev > 255 then
    ["board.virtio_rng.enabled=1",
     "board.virtio_rng.seed=0",
     "board.virtio_rng.generator=2"]
   else [])

/-- The complete `model_params` list at the point where `fvp_args` is
built from it (run_fvp.py line 319 for the architectural branch, line
340 for the Morello branch). -/
def process_model_params (use_architectureal_fvp : Bool) (ssh_port : Nat)
    (disk_image fip_bin bl1_bin : String) (fvp_rev : Int) : List String :=
  common_model_params use_architectureal_fvp ssh_port disk_image ++
  (if use_architectureal_fvp then arch_extra_params fip_bin bl1_bin
   else morello_extra_params fvp_rev)

/-- The `-C`-prepending comprehension in `LaunchFVPBase.process`
(run_fvp.py lines 319 and 340):
`fvp_args = [x for param in model_params for x in ("-C", param)]`. -/
def fvp_args_of (model_params : List String) : List String :=
  model_params.flatMap (fun param => ["-C", param])

/-! ### Fatal-error messages for missing files and config values

`self.fatal(...)` is called with the message parts below; the
`get_config_option_name(attr)` results are abstract strings (`instOpt`,
`fwOpt`, `licOpt`, `simOpt`) since that helper lives outside this
excerpt, and each message embeds `"--" ++ <option name>` exactly where
the source writes `"--" + self.get_config_option_name(...)`. -/

/-- Message of the fatal at run_fvp.py lines 73-74 (installer path not
set). -/
def installerUnsetMsg (instOpt : String) : List String :=
  ["Path to installer not known, set the", "--" ++ instOpt, "config option!"]

/-- Message of the fatal at run_fvp.py line 77 (installer path set but
not an existing file). -/
def installerNotFileMsg (p : String) : List String :=
  ["Specified path to installer does not exist:", p]

/-- Message of the fatal at run_fvp.py lines 251-252 (firmware path
does not exist). -/
def firmwareInvalidMsg (fwPath fwOpt : String) : List String :=
  ["Firmware path", fwPath, " is invalid, set the", "--" ++ fwOpt, "config option!"]

/-- Message of the fatal at run_fvp.py lines 295-297 (license server
unset while using the architectural FVP). -/
def licenseUnknownMsg (licOpt : String) : List String :=
  ["License server info unknown, set the", "--" ++ licOpt, "config option!"]

/-- Message of the fatal at run_fvp.py lines 299-300 (architectural
model path is not a directory). -/
def fvpPathMsg (amPath simOpt : String) : List String :=
  ["FVP path", amPath, "does not exist, set the", "--" ++ simOpt, "config option!"]

/-- The fatal messages produced by the validation prologue of
`InstallMorelloFVP.process` (run_fvp.py lines 72-77): when
`installer_path` is unset (`none`) the unset fatal fires and the method
returns; otherwise, when the path is not an existing file, the
not-a-file fatal fires. -/
def install_process_fatals (installer_path : Option String) (is_file : String → Bool)
    (instOpt : String) : List (List String) :=
  match installer_path with
  | none => [installerUnsetMsg instOpt]
  | some p => if is_file p then [] else [installerNotFileMsg p]

/-- The fatal messages produced by the validation checks of
`LaunchFVPBase.process` (run_fvp.py lines 250-252 and 292-300): the
firmware-path check always runs; the license-server and simulator-path
checks run only when `use_architectureal_fvp` is set.  An unset license
server is `none` or the empty string (Python falsiness of the config
value). -/
def launch_process_fatals (fw_exists : Bool) (fwPath : String)
    (use_architectureal_fvp : Bool) (license_server : Option String)
    (arch_model_is_dir : Bool) (amPath : String)
    (fwOpt licOpt simOpt : String) : List (List String) :=
  (if fw_exists then [] else [firmwareInvalidMsg fwPath fwOpt]) ++
  (if use_architectureal_fvp then
    (if license_server.getD "" = "" then [licenseUnknownMsg licOpt] else []) ++
    (if arch_model_is_dir then [] else [fvpPathMsg amPath simOpt])
  else [])

/-! ### InstallMorelloFVP.execute_fvp socat lifecycle -/

/-- Events observable during `InstallMorelloFVP.execute_fvp`
(run_fvp.py lines 131-174). -/
inductive FvpEvent where
  | spawnSocat
  | runSimCmd
  | terminateSocat
  | killSocat
deriving DecidableEq

/-- The condition under which `execute_fvp` spawns socat
(run_fvp.py line 164):
`if self.use_docker_container and x11 and OSInfo.IS_MAC and os.getenv("DISPLAY")`. -/
def socat_needed (use_docker_container x11 is_mac display_set : Bool) : Bool :=
  use_docker_container && x11 && is_mac && display_set

/-- `InstallMorelloFVP.execute_fvp` (run_fvp.py lines 164-174) as an
event trace plus the exception status propagated to the caller.  When
socat is needed it is spawned, then the simulator command runs inside a
`try` whose `finally` terminates and kills socat; an exception raised by
the simulator command (`cmd_raises`) still runs the `finally` block and
then propagates.  Otherwise only the simulator command runs. -/
def execute_fvp_events (use_docker_container x11 is_mac display_set cmd_raises : Bool) :
    List FvpEvent × Bool :=
  if socat_needed use_docker_container x11 is_mac display_set then
    ([FvpEvent.spawnSocat] ++ [FvpEvent.runSimCmd]
      ++ [FvpEvent.terminateSocat, FvpEvent.killSocat], cmd_raises)
  else
    ([FvpEvent.runSimCmd], cmd_raises)

/-- Whether the socat child process is still running after a trace of
events: spawning starts it, terminate/kill stop it. -/
def socat_running_after (events : List FvpEvent) : Bool :=
  events.foldl
    (fun running e =>
      match e with
      | FvpEvent.spawnSocat => true
      | FvpEvent.terminateSocat => false
      | FvpEvent.killSocat => false
      | FvpEvent.runSimCmd => running)
    false

/-! ### Lazy shared instance resolution -/

/-- Modelled from the spec: the key under which project instances are
shared — "configuration options that are resolved lazily and shared
across project instances keyed by architecture/target".  The resolution
logic itself (`SimpleProject.get_instance` in `project.py`) is not part
of this excerpt; only its callers are (run_fvp.py lines 322 and 348). -/
structure TargetKey where
  projectClass : String
  crossTarget : String
deriving DecidableEq

/-- Modelled from the spec: the per-key instance cache lookup behind
`get_instance`. -/
def lookup_instance {α : Type} (cache : List (TargetKey × α)) (k : TargetKey) :
    Option (TargetKey × α) :=
  cache.find? (fun e => decide (e.1 = k))

/-- Modelled from the spec: `SimpleProject.get_instance` — instances
"are resolved lazily and shared across project instances keyed by
architecture/target": return the cached instance for the key when one
exists, otherwise construct it now (lazily, on first demand) and record
it in the cache. -/
def get_instance {α : Type} (construct : TargetKey → α) (cache : List (TargetKey × α))
    (k : TargetKey) : α × List (TargetKey × α) :=
  match lookup_instance cache k with
  | some e => (e.2, cache)
  | none => (construct k, (k, construct k) :: cache)

end RunFVP

namespace NewlibBaremetal

/-! ### BuildNewlibBaremetal (newlib_baremetal.py) -/

/-- `self.triple` as set in `BuildNewlibBaremetal.__init__`
(newlib_baremetal.py line 58). -/
def triple : String := "mips64-qemu-elf"

/-- The list passed to `self.configureArgs.extend(...)` in
`BuildNewlibBaremetal.configure` (newlib_baremetal.py lines 104-122).
Note: in the Python source `"--disable-newlib-io-long-double"` (line
109) has no trailing comma, so it and `"--disable-newlib-mb"` (line
111) are adjacent string literals that Python implicitly concatenates
into the single element written out below. -/
def newlib_feature_args : List String :=
  ["--enable-malloc-debugging",
   "--enable-newlib-long-time_t",
   "--enable-newlib-io-c99-formats",
   "--enable-newlib-io-long-long",
   "--disable-newlib-io-long-double--disable-newlib-mb",
   "--disable-libstdcxx",
   "--disable-newlib-io-float",
   "--enable-newlib-global-atexit",
   "--enable-serial-build-configure",
   "--enable-serial-target-configure",
   "--enable-serial-host-configure"]

/-- `BuildNewlibBaremetal.configure` (newlib_baremetal.py lines
103-128): extend `configureArgs` with the feature list, then append
`"--target=" + self.triple`, `"--disable-multilib"` and
`"--with-newlib"`, then delegate to the superclass `configure` (which
consumes the accumulated `configureArgs`).  The value returned here is
the `configureArgs` list as handed to the superclass. -/
def configure (configureArgs : List String) : List String :=
  ((configureArgs ++ newlib_feature_args)
    ++ ["--target=" ++ triple]) ++ ["--disable-multilib"] ++ ["--with-newlib"]

/-- A make-environment update (`self.make_args.env_vars[k] = str(v)`,
newlib_baremetal.py line 101): point update of the environment map. -/
def env_insert (e : String → Option String) (k v : String) : String → Option String :=
  fun x => if x = k then some v else e x

/-- `BuildNewlibBaremetal.add_configure_vars` (newlib_baremetal.py
lines 96-101): forward all keyword arguments to the superclass
configure-variable handling (first component) and additionally set
`make_args.env_vars[k] = str(v)` for every pair (second component).
`kwargs` carries values of an arbitrary type `α` with `toStr`
standing for Python `str`. -/
def add_configure_vars {α : Type} (toStr : α → String)
    (make_env : String → Option String) (kwargs : List (String × α)) :
    (List (String × α)) × (String → Option String) :=
  (kwargs, kwargs.foldl (fun e kv => env_insert e kv.1 (toStr kv.2)) make_env)

end NewlibBaremetal

/-! ## Theorems -/

namespace RunFVP

/-- C1: `fvp_args` passes every collected model parameter `p` as the two
consecutive arguments `"-C", p`: the list built by the comprehension has
exactly twice the length of `model_params`, and for each index `i` the
element at position `2*i` is `"-C"` and the element at position `2*i+1`
is the `i`-th model parameter, so the parameters' order is preserved. -/
theorem fvp_args_structure (model_params : List String) :
    (fvp_args_of model_params).length = 2 * model_params.length ∧
    ∀ i, i < model_params.length →
      (fvp_args_of model_params)[2 * i]? = some "-C" ∧
      (fvp_args_of model_params)[2 * i + 1]? = model_params[i]? := by
  constructor
  · induction model_params with
    | nil => rfl
    | cons p rest ih =>
      simp only [fvp_args_of, List.flatMap_cons] at ih ⊢
      simp only [List.length_append, List.length_cons, List.length_nil, ih]
      omega
  · induction model_params with
    | nil => intro i hi; cases hi
    | cons p rest ih =>
      intro i hi
      cases i with
      | zero => simp [fvp_args_of, List.flatMap_cons]
      | succ j =>
        have hj : j < rest.length := by
          simpa [List.length_cons, Nat.succ_lt_succ_iff] using hi
        have h2 : 2 * (j + 1) = (2 * j + 1) + 1 := by omega
        have := ih j hj
        simp only [fvp_args_of, List.flatMap_cons] at this ⊢
        rw [h2]
        simpa [List.cons_append, List.getElem?_cons_succ] using this

/-- Witness for C1 at the concrete parameter list `["a", "b"]`. -/
theorem fvp_args_structure_witness :
    (fvp_args_of ["a", "b"]).length = 2 * 2 ∧
    (fvp_args_of ["a", "b"])[2 * 1]? = some "-C" ∧
    (fvp_args_of ["a", "b"])[2 * 1 + 1]? = (["a", "b"] : List String)[1]? := by
  have h := fvp_args_structure ["a", "b"]
  exact ⟨h.1, (h.2 1 (by decide)).1, (h.2 1 (by decide)).2⟩

/-- C5: installer selection in `InstallMorelloFVP.process`: for the
suffix `".tgz"` the installer chosen is the first `*.sh` glob result in
the extraction directory, falling back to `<td>/FVP_Morello.sh` when no
`.sh` file is found; for every other suffix the installer is
`installer_path` itself, unmodified. -/
theorem installer_sh_spec (installer_path suffix td : String) (globSh : List String) :
    (suffix = ".tgz" →
      (globSh = [] → installer_sh installer_path suffix td globSh = td ++ "/FVP_Morello.sh") ∧
      (∀ x rest, globSh = x :: rest → installer_sh installer_path suffix td globSh = x)) ∧
    (suffix ≠ ".tgz" → installer_sh installer_path suffix td globSh = installer_path) := by
  constructor
  · intro hs
    constructor
    · intro hg; subst hs; subst hg; rfl
    · intro x rest hg; subst hs; subst hg; rfl
  · intro hs
    simp [installer_sh, hs]

/-- Witness for C5: a `.tgz` installer with one glob hit, a `.tgz`
installer with no glob hit, and a `.sh` installer. -/
theorem installer_sh_spec_witness :
    installer_sh "/x/inst.tgz" ".tgz" "/tmp/t" ["/tmp/t/a.sh"] = "/tmp/t/a.sh" ∧
    installer_sh "/x/inst.tgz" ".tgz" "/tmp/t" [] = "/tmp/t" ++ "/FVP_Morello.sh" ∧
    installer_sh "/x/inst.sh" ".sh" "/tmp/t" [] = "/x/inst.sh" := by
  refine ⟨?_, ?_, ?_⟩
  · exact (installer_sh_spec "/x/inst.tgz" ".tgz" "/tmp/t" ["/tmp/t/a.sh"]).1 rfl
      |>.2 "/tmp/t/a.sh" [] rfl
  · exact ((installer_sh_spec "/x/inst.tgz" ".tgz" "/tmp/t" []).1 rfl).1 rfl
  · exact (installer_sh_spec "/x/inst.sh" ".sh" "/tmp/t" []).2 (by decide)

/-- C9: when the revision file cannot be read or parsed (`none`),
`fvp_revision` falls back to `latest_known_fvp = 345`; that value is at
least 312, so the `--plugin` argument list is empty and the
"FVP is too old" fatal in `LaunchFVPBase.process` is not triggered. -/
theorem fvp_revision_fallback (pluginPath : String) :
    fvp_revision none = latest_known_fvp ∧
    latest_known_fvp = 345 ∧
    312 ≤ fvp_revision none ∧
    plugin_args (fvp_revision none) pluginPath = [] ∧
    fvp_is_too_old (fvp_revision none) = false := by
  refine ⟨rfl, rfl, by decide, ?_, by decide⟩
  simp [plugin_args, fvp_revision, latest_known_fvp]

/-- C3 counterexample: when `installer_path` is set to a path that is
not an existing file, `InstallMorelloFVP.process` fails with
"Specified path to installer does not exist:" — a message that does not
name the `installer-path` config option (no part of it is the
`"--" ++ <option>` hint the other checks emit; indeed no part of it
even starts with `--`), refuting the claim that every such failure
message includes a remediation hint naming the config option. -/
theorem installer_not_file_no_option_hint :
    install_process_fatals (some "/tmp/installer.txt") (fun _ => false)
      "install-morello-fvp/installer-path" =
      [["Specified path to installer does not exist:", "/tmp/installer.txt"]] ∧
    "--install-morello-fvp/installer-path" ∉
      ["Specified path to installer does not exist:", "/tmp/installer.txt"] ∧
    (["Specified path to installer does not exist:", "/tmp/installer.txt"].all
      (fun s => decide (s.data.take 2 ≠ ['-', '-']))) = true := by
  refine ⟨rfl, by decide, by decide⟩

/-- C3 (amended): each of the four missing-file/config-value checks
fails with its descriptive fatal message; the unset-installer-path,
missing-firmware-path, unset-license-server and missing-simulator-path
messages include the remediation hint `"--" ++ <config option>`, while
the installer-path-not-a-file failure reports only the message and the
offending path, without naming a config option. -/
theorem missing_config_fatals (instOpt fwOpt licOpt simOpt fwPath amPath p : String)
    (is_file : String → Bool) (use_arch fw_exists arch_dir : Bool)
    (license_server : Option String) :
    (install_process_fatals none is_file instOpt = [installerUnsetMsg instOpt] ∧
      ("--" ++ instOpt) ∈ installerUnsetMsg instOpt) ∧
    (is_file p = false →
      install_process_fatals (some p) is_file instOpt = [installerNotFileMsg p]) ∧
    (firmwareInvalidMsg fwPath fwOpt ∈
        launch_process_fatals false fwPath use_arch license_server arch_dir amPath
          fwOpt licOpt simOpt ∧
      ("--" ++ fwOpt) ∈ firmwareInvalidMsg fwPath fwOpt) ∧
    (license_server.getD "" = "" →
      licenseUnknownMsg licOpt ∈
        launch_process_fatals fw_exists fwPath true license_server arch_dir amPath
          fwOpt licOpt simOpt ∧
      ("--" ++ licOpt) ∈ licenseUnknownMsg licOpt) ∧
    (arch_dir = false →
      fvpPathMsg amPath simOpt ∈
        launch_process_fatals fw_exists fwPath true license_server arch_dir amPath
          fwOpt licOpt simOpt ∧
      ("--" ++ simOpt) ∈ fvpPathMsg amPath simOpt) := by
  refine ⟨⟨rfl, by simp [installerUnsetMsg]⟩, ?_, ⟨?_, by simp [firmwareInvalidMsg]⟩, ?_, ?_⟩
  · intro hf
    simp [install_process_fatals, hf]
  · simp [launch_process_fatals, List.mem_append]
  · intro hl
    refine ⟨?_, by simp [licenseUnknownMsg]⟩
    simp [launch_process_fatals, hl, List.mem_append]
  · intro ha
    refine ⟨?_, by simp [fvpPathMsg]⟩
    simp [launch_process_fatals, ha, List.mem_append]

/-- Witness for C3 (amended) at concrete option names, paths and
filesystem state. -/
theorem missing_config_fatals_witness :
    install_process_fatals none (fun _ => false) "installer-path" =
      [installerUnsetMsg "installer-path"] ∧
    install_process_fatals (some "/x.sh") (fun _ => false) "installer-path" =
      [installerNotFileMsg "/x.sh"] ∧
    licenseUnknownMsg "license-server" ∈
      launch_process_fatals true "/fw" true none false "/sim"
        "firmware-path" "license-server" "simulator-path" ∧
    fvpPathMsg "/sim" "simulator-path" ∈
      launch_process_fatals true "/fw" true none false "/sim"
        "firmware-path" "license-server" "simulator-path" := by
  have h := missing_config_fatals "installer-path" "firmware-path" "license-server"
    "simulator-path" "/fw" "/sim" "/x.sh" (fun _ => false) true true false none
  exact ⟨h.1.1, h.2.1 rfl, (h.2.2.2.1 rfl).1, (h.2.2.2.2 rfl).1⟩

/-- C4: in `execute_fvp`, when socat is spawned it is spawned before the
simulator command runs and is terminated and killed afterwards, whether
or not running the simulator command raises an exception (the trace is
always spawn, run, terminate, kill); the exception status is propagated
unchanged, and in no case does `execute_fvp` finish with the spawned
socat still running. -/
theorem execute_fvp_socat_scoped (use_docker_container x11 is_mac display_set cmd_raises : Bool) :
    socat_running_after
      (execute_fvp_events use_docker_container x11 is_mac display_set cmd_raises).1 = false ∧
    (execute_fvp_events use_docker_container x11 is_mac display_set cmd_raises).2 = cmd_raises ∧
    (FvpEvent.spawnSocat ∈
        (execute_fvp_events use_docker_container x11 is_mac display_set cmd_raises).1 →
      (execute_fvp_events use_docker_container x11 is_mac display_set cmd_raises).1 =
        [FvpEvent.spawnSocat, FvpEvent.runSimCmd, FvpEvent.terminateSocat,
         FvpEvent.killSocat]) := by
  by_cases h : socat_needed use_docker_container x11 is_mac display_set = true <;>
    simp [execute_fvp_events, h, socat_running_after]

/-- Witness for C4: the socat-spawning configuration (docker, x11,
macOS, DISPLAY set) with the simulator command raising an exception. -/
theorem execute_fvp_socat_scoped_witness :
    socat_running_after (execute_fvp_events true true true true true).1 = false ∧
    (execute_fvp_events true true true true true).1 =
      [FvpEvent.spawnSocat, FvpEvent.runSimCmd, FvpEvent.terminateSocat,
       FvpEvent.killSocat] := by
  have h := execute_fvp_socat_scoped true true true true true
  exact ⟨h.1, h.2.2 (by decide)⟩

/-- C7: repeated calls to `get_instance` with the same
class/architecture/target key return the one shared instance rather
than constructing a new one per call: the second call returns the same
instance as the first and leaves the instance cache unchanged. -/
theorem get_instance_shared {α : Type} (construct : TargetKey → α)
    (cache : List (TargetKey × α)) (k : TargetKey) :
    (get_instance construct (get_instance construct cache k).2 k).1 =
      (get_instance construct cache k).1 ∧
    (get_instance construct (get_instance construct cache k).2 k).2 =
      (get_instance construct cache k).2 := by
  cases hfind : lookup_instance cache k with
  | some e =>
    simp [get_instance, hfind]
  | none =>
    have h2 : lookup_instance ((k, construct k) :: cache) k = some (k, construct k) := by
      simp [lookup_instance, List.find?_cons]
    simp [get_instance, hfind, h2]

/-- Appending strings appends their character data. -/
theorem str_data_append (a b : String) : (a ++ b).data = a.data ++ b.data := by
  cases a; cases b; rfl

/-- A string whose first characters differ from a concrete head string
`p` cannot be `p` followed by anything. -/
theorem ne_append1_of_take_ne (t p : String)
    (h : t.data.take p.data.length ≠ p.data) : ∀ v : String, t ≠ p ++ v := by
  intro v heq
  apply h
  rw [heq, str_data_append]
  exact List.take_left _ _

/-- Two-level variant of `ne_append1_of_take_ne` for elements of the
form `a ++ (b ++ v)`. -/
theorem ne_append2_of_take_ne (t a b : String)
    (h : t.data.take (a.data.length + b.data.length) ≠ a.data ++ b.data) :
    ∀ v : String, t ≠ a ++ (b ++ v) := by
  intro v heq
  apply h
  rw [heq, str_data_append, str_data_append, ← List.append_assoc,
    ← List.length_append]
  exact List.take_left _ _

/-- Three-level variant of `ne_append1_of_take_ne` for elements of the
form `a ++ (b ++ (c ++ v))`. -/
theorem ne_append3_of_take_ne (t a b c : String)
    (h : t.data.take (a.data.length + b.data.length + c.data.length)
      ≠ a.data ++ b.data ++ c.data) :
    ∀ v : String, t ≠ a ++ (b ++ (c ++ v)) := by
  intro v heq
  apply h
  rw [heq, str_data_append, str_data_append, str_data_append,
    ← List.append_assoc, ← List.append_assoc, ← List.length_append,
    ← List.length_append]
  exact List.take_left _ _

/-- String append is associative. -/
theorem str_append_assoc (a b c : String) : a ++ b ++ c = a ++ (b ++ c) := by
  cases a; cases b; cases c
  apply congrArg String.mk
  exact List.append_assoc _ _ _

/-- C6: board parameters get the prefix `"bp."` exactly when
`use_architectureal_fvp` is set and `"board."` otherwise, and whatever
the branch, FVP revision and paths, the three hostbridge networking
parameters `<board-prefix>hostbridge.userNetworking=true`,
`<board-prefix>hostbridge.userNetPorts=<ssh_port>=22` and
`<board-prefix>hostbridge.interfaceName=ARM0` are all emitted into the
model parameter list for the configured ssh port. -/
theorem hostbridge_params_emitted (use_architectureal_fvp : Bool) (ssh_port : Nat)
    (disk_image fip_bin bl1_bin : String) (fvp_rev : Int) :
    board_pfx true = "bp." ∧
    board_pfx false = "board." ∧
    hostbridge_pfx = "hostbridge." ∧
    board_pfx use_architectureal_fvp ++ (hostbridge_pfx ++ "userNetworking=true") ∈
      process_model_params use_architectureal_fvp ssh_port disk_image fip_bin bl1_bin fvp_rev ∧
    board_pfx use_architectureal_fvp ++
        (hostbridge_pfx ++ ("userNetPorts=" ++ toString ssh_port ++ "=22")) ∈
      process_model_params use_architectureal_fvp ssh_port disk_image fip_bin bl1_bin fvp_rev ∧
    board_pfx use_architectureal_fvp ++ (hostbridge_pfx ++ "interfaceName=ARM0") ∈
      process_model_params use_architectureal_fvp ssh_port disk_image fip_bin bl1_bin fvp_rev := by
  refine ⟨by decide, by decide, by decide, ?_, ?_, ?_⟩ <;>
    cases use_architectureal_fvp <;>
      simp [process_model_params, common_model_params, add_board_params,
        add_hostbridge_params, use_virtio_net, List.mem_append]

/-- C8: `use_virtio_net` always returns `False`, so every run of
`LaunchFVPBase.process` adds the board parameter `smsc_91c111.enabled=1`
(under the branch's board prefix), the parameter
`<board-prefix>virtio_net.enabled=1` never occurs anywhere in the model
parameter list, and the hostbridge prefix is plain `"hostbridge."`
without the `"virtio_net."` part. -/
theorem virtio_net_never_enabled (use_architectureal_fvp : Bool) (ssh_port : Nat)
    (disk_image fip_bin bl1_bin : String) (fvp_rev : Int) :
    use_virtio_net = false ∧
    board_pfx use_architectureal_fvp ++ "smsc_91c111.enabled=1" ∈
      process_model_params use_architectureal_fvp ssh_port disk_image fip_bin bl1_bin fvp_rev ∧
    board_pfx use_architectureal_fvp ++ "virtio_net.enabled=1" ∉
      process_model_params use_architectureal_fvp ssh_port disk_image fip_bin bl1_bin fvp_rev ∧
    hostbridge_pfx = "hostbridge." := by
  refine ⟨rfl, ?_, ?_, by decide⟩
  · cases use_architectureal_fvp <;>
      simp [process_model_params, common_model_params, add_board_params,
        use_virtio_net, List.mem_append]
  · cases use_architectureal_fvp
    · by_cases hr : fvp_rev > 255 <;>
      · intro hmem
        simp [process_model_params, common_model_params, add_board_params,
          add_hostbridge_params, morello_extra_params, use_virtio_net, board_pfx,
          hostbridge_pfx, hr, List.mem_append] at hmem
        rcases hmem with h | h
        · rw [str_append_assoc] at h
          exact ne_append3_of_take_ne _ "board." "hostbridge." "userNetPorts="
            (by decide) _ h
        · exact ne_append2_of_take_ne _ "board." "virtioblockdevice.image_path="
            (by decide) _ h
    · intro hmem
      simp [process_model_params, common_model_params, add_board_params,
        add_hostbridge_params, arch_extra_params, use_virtio_net, board_pfx,
        hostbridge_pfx, List.mem_append] at hmem
      rcases hmem with h | h | h | h
      · rw [str_append_assoc] at h
        exact ne_append3_of_take_ne _ "bp." "hostbridge." "userNetPorts="
          (by decide) _ h
      · exact ne_append2_of_take_ne _ "bp." "virtioblockdevice.image_path="
          (by decide) _ h
      · exact ne_append1_of_take_ne _ "bp.flashloader0.fname=" (by decide) _ h
      · exact ne_append1_of_take_ne _ "bp.secureflashloader.fname=" (by decide) _ h

/-- Witness for C8 at a concrete configuration (Morello branch, ssh
port 10021, revision 345). -/
theorem virtio_net_never_enabled_witness :
    board_pfx false ++ "smsc_91c111.enabled=1" ∈
      process_model_params false 10021 "/img" "/fip" "/bl1" 345 ∧
    board_pfx false ++ "virtio_net.enabled=1" ∉
      process_model_params false 10021 "/img" "/fip" "/bl1" 345 := by
  have h := virtio_net_never_enabled false 10021 "/img" "/fip" "/bl1" 345
  exact ⟨h.2.1, h.2.2.1⟩

end RunFVP

namespace NewlibBaremetal

/-- C2 (code bug): in the source of `BuildNewlibBaremetal.configure`
the comma after `"--disable-newlib-io-long-double"` is missing, so that
flag and `"--disable-newlib-mb"` are implicitly concatenated by Python
into one argument: neither appears as its own element of the argument
list, while their concatenation does.  The trailing arguments
`--target=mips64-qemu-elf`, `--disable-multilib` and `--with-newlib`
do follow as the claim states. -/
theorem configure_args_concatenated :
    "--disable-newlib-io-long-double" ∉ configure [] ∧
    "--disable-newlib-mb" ∉ configure [] ∧
    "--disable-newlib-io-long-double--disable-newlib-mb" ∈ configure [] ∧
    (configure []).reverse.take 3 =
      ["--with-newlib", "--disable-multilib", "--target=mips64-qemu-elf"] := by
  decide

/-- If every key of `kwargs` is distinct from `k`, folding the
environment updates leaves the entry for `k` unchanged. -/
theorem env_foldl_not_mem {α : Type} (toStr : α → String) (kwargs : List (String × α)) :
    ∀ (env : String → Option String) (k : String), k ∉ kwargs.map Prod.fst →
      kwargs.foldl (fun e kv => env_insert e kv.1 (toStr kv.2)) env k = env k := by
  induction kwargs with
  | nil => intro env k _; rfl
  | cons kv rest ih =>
    intro env k hk
    simp only [List.map_cons, List.mem_cons, not_or] at hk
    simp only [List.foldl_cons]
    rw [ih _ k hk.2]
    simp [env_insert, hk.1]

/-- With distinct keys, folding the environment updates maps each key of
`kwargs` to the string form of its value. -/
theorem env_foldl_mem {α : Type} (toStr : α → String) (kwargs : List (String × α))
    (hnd : (kwargs.map Prod.fst).Nodup) :
    ∀ (env : String → Option String) (k : String) (v : α), (k, v) ∈ kwargs →
      kwargs.foldl (fun e kv => env_insert e kv.1 (toStr kv.2)) env k = some (toStr v) := by
  induction kwargs with
  | nil => intro env k v h; cases h
  | cons kv rest ih =>
    intro env k v h
    simp only [List.map_cons, List.nodup_cons] at hnd
    simp only [List.foldl_cons]
    rcases List.mem_cons.mp h with h1 | h2
    · have hk : k ∉ rest.map Prod.fst := by
        have : kv.1 = k := by rw [← h1]
        rw [← this]; exact hnd.1
      rw [env_foldl_not_mem toStr rest _ k hk]
      have hkk : kv.1 = k := by rw [← h1]
      have hvv : kv.2 = v := by rw [← h1]
      simp [env_insert, hkk, hvv]
    · exact ih hnd.2 _ k v h2

/-- C10: `add_configure_vars` forwards all keyword pairs to the
superclass configure-variable handling, and mirrors every pair into the
make environment: afterwards `make_args.env_vars` maps each passed key
to the string form of its value, and every key not passed keeps its
previous value (no other make environment entry is changed). -/
theorem add_configure_vars_spec {α : Type} (toStr : α → String)
    (make_env : String → Option String) (kwargs : List (String × α))
    (hnd : (kwargs.map Prod.fst).Nodup) :
    (add_configure_vars toStr make_env kwargs).1 = kwargs ∧
    (∀ k v, (k, v) ∈ kwargs →
      (add_configure_vars toStr make_env kwargs).2 k = some (toStr v)) ∧
    (∀ k, k ∉ kwargs.map Prod.fst →
      (add_configure_vars toStr make_env kwargs).2 k = make_env k) := by
  refine ⟨rfl, ?_, ?_⟩
  · intro k v h
    exact env_foldl_mem toStr kwargs hnd make_env k v h
  · intro k hk
    exact env_foldl_not_mem toStr kwargs make_env k hk

/-- Witness for C10: two configure variables with numeric values; the
passed keys get their values' string forms, an unrelated key keeps its
previous entry. -/
theorem add_configure_vars_spec_witness :
    (add_configure_vars (fun n : Nat => toString n) (fun _ => some "old")
      [("CC", 1), ("AR", 2)]).2 "CC" = some "1" ∧
    (add_configure_vars (fun n : Nat => toString n) (fun _ => some "old")
      [("CC", 1), ("AR", 2)]).2 "HOME" = some "old" := by
  have h := add_configure_vars_spec (fun n : Nat => toString n) (fun _ => some "old")
    [("CC", 1), ("AR", 2)] (by decide)
  exact ⟨h.2.1 "CC" 1 (by decide), h.2.2 "HOME" (by decide)⟩

end NewlibBaremetal
